import Mathlib

/-!
Shallow embedding of the `rhc` repository-health-check tool, covering the
data model (`rhc/types.py`), scoring and policy logic (`rhc/scoring.py`),
the check registry filter (`rhc/checks/__init__.py`), check weights
(`rhc/checks/base.py`), the scanner's finding collection and sort
(`rhc/scanner.py`), the outdated-dependency-hints check
(`rhc/checks/deps.py`) and the filesystem view (`rhc/context.py`),
together with theorems settling the specification claims.
-/

namespace RHC

/-! ## Data model (`rhc/types.py`) -/

/-- `Severity(str, Enum)`: severity levels, in declaration order
`INFO, LOW, MEDIUM, HIGH, CRITICAL`. Each member carries a string value. -/
inductive Severity where
  | info
  | low
  | medium
  | high
  | critical
deriving DecidableEq, Repr

/-- The string value of each `Severity` member (`Severity.INFO = "info"`, ...). -/
def Severity.value : Severity → String
  | .info => "info"
  | .low => "low"
  | .medium => "medium"
  | .high => "high"
  | .critical => "critical"

/-- Position of a severity in the order list
`[INFO, LOW, MEDIUM, HIGH, CRITICAL]` used by `Severity.__lt__` (and equal to
its index in `list(Severity)`, the enum declaration order). -/
def Severity.index : Severity → Nat
  | .info => 0
  | .low => 1
  | .medium => 2
  | .high => 3
  | .critical => 4

/-- `Severity.__lt__`: comparison by position in the order list
info < low < medium < high < critical. -/
def Severity.lt (a b : Severity) : Prop := a.index < b.index

instance : DecidableRel Severity.lt := fun a b => by
  unfold Severity.lt; infer_instance

/-- Python's `str.__lt__`: code-point-lexicographic comparison of two
strings, written out structurally over the character lists. -/
def pyStrLt : List Char → List Char → Bool
  | [], [] => false
  | [], _ :: _ => true
  | _ :: _, [] => false
  | a :: as, b :: bs =>
    if a.toNat < b.toNat then true
    else if b.toNat < a.toNat then false
    else pyStrLt as bs

/-- Python's `str.__ge__` on two severity members: because `Severity` mixes in
`str` and defines only `__lt__`, the expression `a >= b` on members resolves to
`str.__ge__`, i.e. code-point-lexicographic comparison of the *value strings*
(`a.value >= b.value` as strings), not the severity order. For the total
string order, `a >= b` is `¬ (a < b)`. -/
def Severity.strGe (a b : Severity) : Bool := !(pyStrLt a.value.data b.value.data)

/-- `Category(str, Enum)`: categories for checks and findings. -/
inductive Category where
  | docs
  | ci
  | tests
  | deps
  | security
  | hygiene
  | release
deriving DecidableEq, Repr

/-- The string value of each `Category` member. -/
def Category.value : Category → String
  | .docs => "docs"
  | .ci => "ci"
  | .tests => "tests"
  | .deps => "deps"
  | .security => "security"
  | .hygiene => "hygiene"
  | .release => "release"

/-- `Evidence`: evidence supporting a finding. The `details : dict[str, Any]`
field is dynamically typed in the source and is modelled as a list of
(key, value-rendering) string pairs; no claim inspects it. -/
structure Evidence where
  description : String
  files : List String := []
  details : List (String × String) := []
deriving DecidableEq, Repr

/-- `Finding`: a single finding from a check (`rhc/types.py`). -/
structure Finding where
  id : String
  title : String
  severity : Severity
  category : Category
  score_impact : Int
  evidence : List Evidence := []
  recommendation : String := ""
  refs : List String := []
deriving DecidableEq, Repr

/-- `Summary`: summary of the scan results. The count dicts are modelled as
association lists. -/
structure Summary where
  total_score : Int
  grade : String
  counts_by_severity : List (String × Int)
  counts_by_category : List (String × Int)
deriving DecidableEq, Repr

/-! ## Scoring (`rhc/scoring.py`) -/

/-- `calculate_score`: start at 100, add each finding's `score_impact`
(`score += finding.score_impact`), then clamp with `max(0, min(100, score))`. -/
def calculate_score (findings : List Finding) : Int :=
  let score := findings.foldl (fun s f => s + f.score_impact) 100
  max 0 (min 100 score)

/-- `calculate_grade`: the if/elif chain mapping a score to a letter grade. -/
def calculate_grade (score : Int) : String :=
  if score ≥ 90 then "A"
  else if score ≥ 80 then "B"
  else if score ≥ 70 then "C"
  else if score ≥ 55 then "D"
  else "F"

/-- The `fail_on` half of `check_policy_violation`: scan the findings in
order and report the first finding `f` with `f.severity >= fail_on`, where
`>=` is Python's inherited `str.__ge__` on the value strings
(see `Severity.strGe`). -/
def checkFailOn (fail_on : Severity) : List Finding → Bool × String
  | [] => (false, "")
  | f :: rest =>
    if f.severity.strGe fail_on then
      (true, "Found " ++ f.severity.value ++ " severity issue: " ++ f.id)
    else
      checkFailOn fail_on rest

/-- `check_policy_violation(findings, summary, min_score, fail_on)`:
returns `(violated, reason)`. First the `min_score` test
(`min_score is not None and summary.total_score < min_score`), then the
`fail_on` loop, else `(False, "")`. -/
def check_policy_violation (findings : List Finding) (summary : Summary)
    (min_score : Option Int) (fail_on : Option Severity) : Bool × String :=
  match min_score with
  | some m =>
    if summary.total_score < m then
      (true, "Score " ++ toString summary.total_score ++ " is below minimum "
        ++ toString m)
    else
      match fail_on with
      | some sev => checkFailOn sev findings
      | none => (false, "")
  | none =>
    match fail_on with
    | some sev => checkFailOn sev findings
    | none => (false, "")

/-! ## Checks: metadata, weights, registry filter
(`rhc/checks/base.py`, `rhc/checks/__init__.py`) -/

/-- `CheckInfo`: information about a check (`rhc/checks/base.py`). -/
structure CheckInfo where
  id : String
  title : String
  category : Category
  description : String
  default_enabled : Bool := true
  default_weight : Int := -5
deriving DecidableEq, Repr

/-- `BaseCheck`'s data part: every check carries a `CheckInfo`. (The `run`
method is modelled separately where needed.) -/
structure BaseCheck where
  info : CheckInfo
deriving DecidableEq, Repr

/-- `BaseCheck.id` property: `self.info.id`. -/
def BaseCheck.id (c : BaseCheck) : String := c.info.id

/-- `BaseCheck.get_weight(config_weights)`:
`config_weights.get(self.info.id, self.info.default_weight)`. The config
weight dict is modelled as an association list with unique keys. -/
def get_weight (info : CheckInfo) (config_weights : List (String × Int)) : Int :=
  (config_weights.lookup info.id).getD info.default_weight

/-- `filter_checks(checks, skip, only)` (`rhc/checks/__init__.py`): for each
check, `if skip and check.id in skip: continue`, then
`if only and check.id not in only: continue`, else keep. A `None` skip/only
is normalised to `[]` by `skip = skip or []`, so both are plain lists here. -/
def filter_checks : List BaseCheck → List String → List String → List BaseCheck
  | [], _, _ => []
  | c :: rest, skip, only =>
    if skip ≠ [] ∧ c.id ∈ skip then filter_checks rest skip only
    else if only ≠ [] ∧ c.id ∉ only then filter_checks rest skip only
    else c :: filter_checks rest skip only

/-! ## Scanner (`rhc/scanner.py`) -/

/-- The sort key used in `scan`:
`lambda f: (-list(f.severity.__class__).index(f.severity), f.score_impact)`.
`list(Severity).index(f.severity)` is `Severity.index`. -/
def sortKey (f : Finding) : Int × Int := (-(f.severity.index : Int), f.score_impact)

/-- Lexicographic `≤` on Python tuples of two integers (how Python compares
the sort keys). -/
def pairLe (a b : Int × Int) : Prop := a.1 < b.1 ∨ (a.1 = b.1 ∧ a.2 ≤ b.2)

instance : DecidableRel pairLe := fun a b => by
  unfold pairLe; infer_instance

/-- Key comparison lifted to findings: `sortKey f ≤ sortKey g`. -/
def findingLe (f g : Finding) : Prop := pairLe (sortKey f) (sortKey g)

instance : DecidableRel findingLe := fun f g => by
  unfold findingLe; infer_instance

instance : IsTotal (Int × Int) pairLe where
  total a b := by unfold pairLe; omega

instance : IsTrans (Int × Int) pairLe where
  trans a b c := by unfold pairLe; omega

instance : IsAntisymm (Int × Int) pairLe where
  antisymm a b h h' := by
    unfold pairLe at h h'
    have h1 : a.1 = b.1 := by omega
    have h2 : a.2 = b.2 := by omega
    exact Prod.ext h1 h2

instance : IsTotal Finding findingLe where
  total f g := IsTotal.total (r := pairLe) (sortKey f) (sortKey g)

instance : IsTrans Finding findingLe where
  trans f g h hfg hgh := IsTrans.trans (r := pairLe) _ _ _ hfg hgh

/-- `findings.sort(key=...)` in `scan`: Python's `list.sort` is a stable sort
by the key, and a stable sort by a key is uniquely determined by its
comparator and stability, so it is embedded as a stable insertion sort on the
key order. -/
def sortFindings (findings : List Finding) : List Finding :=
  findings.insertionSort findingLe

/-- The check-execution loop of `scan` (lines 39–47): each check either
returns a list of findings (`some fs`, extended onto the accumulator) or
raises an unexpected exception (`none`, caught by the `except` branch, which
only logs and continues). -/
def collectFindings : List (Option (List Finding)) → List Finding
  | [] => []
  | some fs :: rest => fs ++ collectFindings rest
  | none :: rest => collectFindings rest

/-- The findings list packaged into the `Report` by `scan`: run all checks,
then sort. -/
def scan_findings (results : List (Option (List Finding))) : List Finding :=
  sortFindings (collectFindings results)

/-! ## Filesystem view (`rhc/context.py`) -/

/-- A path as returned by `Path.glob`, together with whether it is a
symlink. -/
structure PathEntry where
  path : String
  is_symlink : Bool
deriving DecidableEq, Repr

/-- `FileIndex._glob_exists(pattern)`: `any(self.root.glob(pattern))` —
the raw glob, with no symlink filtering (the per-pattern cache is pure
memoization and has no observable effect). `rawGlob` models
`self.root.glob`. -/
def glob_exists (rawGlob : String → List PathEntry) (pattern : String) : Bool :=
  !(rawGlob pattern).isEmpty

/-- `FileIndex.exists(*patterns)`: true if `_glob_exists` holds for any
pattern. -/
def fs_exists (rawGlob : String → List PathEntry) (patterns : List String) : Bool :=
  patterns.any (glob_exists rawGlob)

/-- `FileIndex.glob(pattern)`: yields the raw glob matches, skipping
symlinks unless `follow_symlinks` is set. -/
def fs_glob (rawGlob : String → List PathEntry) (follow_symlinks : Bool)
    (pattern : String) : List PathEntry :=
  (rawGlob pattern).filter (fun p => follow_symlinks || !p.is_symlink)

/-! ## Outdated-hints check (`rhc/checks/deps.py`) -/

/-- `FileStats` (`rhc/context.py`): file statistics. Timestamps are modelled
as integer seconds. -/
structure FileStats where
  size : Int
  mtime : Int
  is_symlink : Bool := false
deriving DecidableEq, Repr

/-- `OutdatedHintsCheck.info`. -/
def outdatedHintsInfo : CheckInfo :=
  { id := "DEPS.OUTDATED_HINTS"
    title := "Dependency freshness hints"
    category := Category.deps
    description := "Checks lockfile age as a hint for outdated dependencies."
    default_weight := -3 }

/-- The `lockfiles` list in `OutdatedHintsCheck.run`. -/
def outdatedLockfiles : List String :=
  ["package-lock.json", "yarn.lock", "pnpm-lock.yaml", "poetry.lock",
   "Pipfile.lock", "uv.lock", "go.sum", "Cargo.lock", "Gemfile.lock",
   "composer.lock"]

/-- The finding returned for a lockfile older than one year
("very outdated"). -/
def veryOutdatedFinding (weights : List (String × Int))
    (lockfile_name file : String) : Finding :=
  { id := outdatedHintsInfo.id
    title := "Lockfile appears very outdated"
    severity := Severity.medium
    category := outdatedHintsInfo.category
    score_impact := get_weight outdatedHintsInfo weights
    evidence := [{ description :=
                     lockfile_name ++ " was last modified over 12 months ago"
                   files := [file] }]
    recommendation :=
      "Run `npm update`, `poetry update`, or equivalent to refresh dependencies." }

/-- The finding returned for a lockfile older than six months but not one
year ("may be outdated"; reduced impact `-1`). -/
def maybeOutdatedFinding (lockfile_name file : String) : Finding :=
  { id := outdatedHintsInfo.id
    title := "Lockfile may be outdated"
    severity := Severity.low
    category := outdatedHintsInfo.category
    score_impact := -1
    evidence := [{ description :=
                     lockfile_name ++ " was last modified over 6 months ago"
                   files := [file] }]
    recommendation :=
      "Consider updating dependencies periodically for security patches." }

/-- Seconds in 180 days: `180 * 24 * 60 * 60`. -/
def sixMonthsSecs : Int := 180 * 24 * 60 * 60

/-- Seconds in 365 days: `365 * 24 * 60 * 60`. -/
def oneYearSecs : Int := 365 * 24 * 60 * 60

/-- The loop body of `OutdatedHintsCheck.run` over a list of lockfile names:
for each name, `files = list(ctx.fs.glob(name))`; skip if empty; take
`stats = ctx.fs.file_stats(files[0])`; skip if absent; return the
very-outdated finding if `mtime < now - 365 days`, the may-be-outdated
finding if `mtime < now - 180 days`, otherwise continue with the next
name. -/
def outdatedRunOn (weights : List (String × Int)) (now : Int)
    (fsGlob : String → List String) (fsStats : String → Option FileStats) :
    List String → List Finding
  | [] => []
  | name :: rest =>
    match fsGlob name with
    | [] => outdatedRunOn weights now fsGlob fsStats rest
    | file :: _ =>
      match fsStats file with
      | none => outdatedRunOn weights now fsGlob fsStats rest
      | some stats =>
        if stats.mtime < now - oneYearSecs then
          [veryOutdatedFinding weights name file]
        else if stats.mtime < now - sixMonthsSecs then
          [maybeOutdatedFinding name file]
        else
          outdatedRunOn weights now fsGlob fsStats rest

/-- `OutdatedHintsCheck.run`: the loop over `outdatedLockfiles`. `fsGlob`
models `ctx.fs.glob` (already symlink-filtered), `fsStats` models
`ctx.fs.file_stats`, `now` models `time.time()`, `weights` models
`ctx.config.checks.weights`. -/
def outdatedHintsRun (weights : List (String × Int)) (now : Int)
    (fsGlob : String → List String) (fsStats : String → Option FileStats) :
    List Finding :=
  outdatedRunOn weights now fsGlob fsStats outdatedLockfiles

/-- The first lockfile the loop actually examines (first with a non-empty
glob and available stats), together with the file used and its mtime. -/
def firstLockStat (fsGlob : String → List String)
    (fsStats : String → Option FileStats) :
    List String → Option (String × String × Int)
  | [] => none
  | name :: rest =>
    match fsGlob name with
    | [] => firstLockStat fsGlob fsStats rest
    | file :: _ =>
      match fsStats file with
      | none => firstLockStat fsGlob fsStats rest
      | some stats => some (name, file, stats.mtime)

/-! ## Concrete data used by witnesses and counterexamples -/

/-- A low-severity test finding. -/
def testLowFinding : Finding :=
  { id := "TEST.LOW", title := "Low issue", severity := Severity.low,
    category := Category.docs, score_impact := -5 }

/-- A medium-severity test finding. -/
def testMediumFinding : Finding :=
  { id := "TEST.MEDIUM", title := "Medium issue", severity := Severity.medium,
    category := Category.docs, score_impact := -6 }

/-- A critical-severity test finding. -/
def testCriticalFinding : Finding :=
  { id := "TEST.CRIT", title := "Critical issue", severity := Severity.critical,
    category := Category.security, score_impact := -20 }

/-- A summary with total score 75. -/
def testSummary75 : Summary :=
  { total_score := 75, grade := "C", counts_by_severity := [],
    counts_by_category := [] }

/-! ## Scoring theorems -/

/-- `foldl` of the score update is `init + sum of impacts`. -/
theorem foldl_score_impact (l : List Finding) (a : Int) :
    l.foldl (fun s f => s + f.score_impact) a
      = a + (l.map Finding.score_impact).sum := by
  induction l generalizing a with
  | nil => simp
  | cons f rest ih =>
    simp only [List.foldl_cons, List.map_cons, List.sum_cons, ih]
    ring

/-- Claim C5: `calculate_score []` is 100, and for every finding list
(positive impacts included) the result is 100 plus the sum of all
`score_impact` values clamped to `[0, 100]`, so `0 ≤ score ≤ 100`. -/
theorem calculate_score_spec :
    calculate_score [] = 100 ∧
    (∀ findings : List Finding,
      calculate_score findings
        = max 0 (min 100 (100 + (findings.map Finding.score_impact).sum))) ∧
    (∀ findings : List Finding,
      0 ≤ calculate_score findings ∧ calculate_score findings ≤ 100) := by
  refine ⟨rfl, fun findings => ?_, fun findings => ?_⟩
  · simp [calculate_score, foldl_score_impact]
  · have h : calculate_score findings
        = max 0 (min 100 (100 + (findings.map Finding.score_impact).sum)) := by
      simp [calculate_score, foldl_score_impact]
    rw [h]
    omega

/-- Claim C6: the score is invariant under any permutation of the findings
list. -/
theorem calculate_score_perm_invariant (l₁ l₂ : List Finding)
    (h : l₁.Perm l₂) : calculate_score l₁ = calculate_score l₂ := by
  unfold calculate_score
  rw [foldl_score_impact, foldl_score_impact, (h.map Finding.score_impact).sum_eq]

/-- Witness for C6: the score of a concrete two-element list equals the
score of its reversal. -/
theorem calculate_score_perm_invariant_witness :
    calculate_score [testLowFinding, testMediumFinding]
      = calculate_score [testMediumFinding, testLowFinding] :=
  calculate_score_perm_invariant _ _ (by decide)

/-- Claim C7: on `[0, 100]`, `calculate_grade` is the step function with
bands 90–100 → A, 80–89 → B, 70–79 → C, 55–69 → D, 0–54 → F, each band
inclusive on its lower bound. -/
theorem calculate_grade_bands (s : Int) (h0 : 0 ≤ s) (h100 : s ≤ 100) :
    (calculate_grade s = "A" ↔ 90 ≤ s) ∧
    (calculate_grade s = "B" ↔ 80 ≤ s ∧ s ≤ 89) ∧
    (calculate_grade s = "C" ↔ 70 ≤ s ∧ s ≤ 79) ∧
    (calculate_grade s = "D" ↔ 55 ≤ s ∧ s ≤ 69) ∧
    (calculate_grade s = "F" ↔ s ≤ 54) := by
  unfold calculate_grade
  split_ifs <;> refine ⟨?_, ?_, ?_, ?_, ?_⟩ <;>
    constructor <;> intro hh <;> first
      | rfl
      | omega
      | (exfalso; revert hh; decide)

/-- Witness for C7: the nine boundary values from the specification table. -/
theorem calculate_grade_bands_witness :
    calculate_grade 90 = "A" ∧ calculate_grade 89 = "B" ∧
    calculate_grade 80 = "B" ∧ calculate_grade 79 = "C" ∧
    calculate_grade 70 = "C" ∧ calculate_grade 69 = "D" ∧
    calculate_grade 55 = "D" ∧ calculate_grade 54 = "F" ∧
    calculate_grade 0 = "F" :=
  ⟨(calculate_grade_bands 90 (by decide) (by decide)).1.mpr (by decide),
   (calculate_grade_bands 89 (by decide) (by decide)).2.1.mpr (by decide),
   (calculate_grade_bands 80 (by decide) (by decide)).2.1.mpr (by decide),
   (calculate_grade_bands 79 (by decide) (by decide)).2.2.1.mpr (by decide),
   (calculate_grade_bands 70 (by decide) (by decide)).2.2.1.mpr (by decide),
   (calculate_grade_bands 69 (by decide) (by decide)).2.2.2.1.mpr (by decide),
   (calculate_grade_bands 55 (by decide) (by decide)).2.2.2.1.mpr (by decide),
   (calculate_grade_bands 54 (by decide) (by decide)).2.2.2.2.mpr (by decide),
   (calculate_grade_bands 0 (by decide) (by decide)).2.2.2.2.mpr (by decide)⟩

/-- Claim C1 (divergence witness): with `min_score` unset and
`fail_on = high`, a single *low* finding makes `check_policy_violation`
return `violated = True` (because `>=` on `Severity` falls back to
`str.__ge__` and `"low" >= "high"` lexicographically), while a single
*critical* finding returns `violated = False` (`"critical" < "high"`
lexicographically) — the opposite of the documented severity order. -/
theorem check_policy_violation_uses_string_order :
    check_policy_violation [testLowFinding] testSummary75 none
        (some Severity.high)
      = (true, "Found low severity issue: TEST.LOW") ∧
    check_policy_violation [testCriticalFinding] testSummary75 none
        (some Severity.high)
      = (false, "") := by
  decide

/-! ## Registry filter theorems -/

/-- A check whose id is `"X"`. -/
def testCheckX : BaseCheck :=
  ⟨{ id := "X", title := "Check X", category := Category.docs,
     description := "test check" }⟩

/-- Counterexample to claim C2: a check whose id appears in both `only` and
`skip` is *dropped*, not retained — `filter_checks` applies the skip test
before the only test. -/
theorem filter_checks_both_lists_drops :
    filter_checks [testCheckX] ["X"] ["X"] = [] ∧
    filter_checks [testCheckX] ["X"] ["X"] ≠ [testCheckX] := by
  decide

/-- Claim C2 (amended): `filter_checks` retains exactly the checks whose id
is not in `skip` and, when `only` is non-empty, whose id is in `only`; the
skip list applies even when `only` is non-empty, so a check listed in both
is dropped. When `only` is empty it drops exactly the checks whose id is in
`skip`. -/
theorem filter_checks_spec (checks : List BaseCheck) (skip only : List String) :
    filter_checks checks skip only
      = checks.filter
          (fun c => decide (c.id ∉ skip ∧ (only = [] ∨ c.id ∈ only))) := by
  induction checks with
  | nil => rfl
  | cons c rest ih =>
    simp only [filter_checks, List.filter_cons]
    by_cases hs : c.id ∈ skip
    · have hsne : skip ≠ [] := by rintro rfl; simp at hs
      rw [if_pos ⟨hsne, hs⟩, ih]
      have hnot : ¬ (c.id ∉ skip ∧ (only = [] ∨ c.id ∈ only)) :=
        fun hcontra => hcontra.1 hs
      simp [hnot]
    · rw [if_neg (fun hcontra => hs hcontra.2)]
      by_cases ho : only = []
      · subst ho
        rw [if_neg (fun hcontra => hcontra.1 rfl), ih]
        simp [hs]
      · by_cases hin : c.id ∈ only
        · rw [if_neg (fun hcontra => hcontra.2 hin), ih]
          simp [hs, hin]
        · rw [if_pos ⟨ho, hin⟩, ih]
          simp [hs, ho, hin]

/-! ## Weight override theorems -/

/-- The README check's metadata (`rhc/checks/docs.py` uses default
weight −5 via `CheckInfo`). -/
def testReadmeInfo : CheckInfo :=
  { id := "DOC.README_PRESENT", title := "README present",
    category := Category.docs, description := "Checks for a README file." }

/-- Counterexample to claim C3: a positive config override is returned by
`get_weight` verbatim — nothing clamps it to be non-positive, so a finding
built from it carries a positive `score_impact`. -/
theorem get_weight_positive_override :
    (0 : Int) < get_weight testReadmeInfo [("DOC.README_PRESENT", 5)] := by
  decide

/-- Claim C3 (amended): `get_weight` returns the configured override
verbatim, so the score impact is ≤ 0 exactly when the check's default
weight and every configured override are ≤ 0; a positive override yields a
positive score impact. -/
theorem get_weight_nonpos (info : CheckInfo) (w : List (String × Int))
    (hd : info.default_weight ≤ 0) (hw : ∀ p ∈ w, p.2 ≤ 0) :
    get_weight info w ≤ 0 := by
  induction w with
  | nil => simpa [get_weight] using hd
  | cons p rest ih =>
    obtain ⟨k, v⟩ := p
    simp only [get_weight, List.lookup] at ih ⊢
    by_cases hk : info.id == k
    · simp only [hk]
      simpa using hw (k, v) (List.mem_cons_self _ _)
    · simp only [Bool.not_eq_true] at hk
      simp only [hk]
      exact ih (fun q hq => hw q (List.mem_cons_of_mem _ hq))

/-- Witness for C3 (amended): with only non-positive overrides configured,
the README check's weight is non-positive. -/
theorem get_weight_nonpos_witness :
    get_weight testReadmeInfo [("CI.CONFIG_PRESENT", -3)] ≤ 0 :=
  get_weight_nonpos testReadmeInfo [("CI.CONFIG_PRESENT", -3)]
    (by decide) (by decide)

/-! ## Scanner sort theorems -/

/-- A finding that ties with `tieFindingB` on severity and score impact. -/
def tieFindingA : Finding :=
  { id := "DEPS.LOCKFILE_PRESENT", title := "No dependency lockfile found",
    severity := Severity.medium, category := Category.deps,
    score_impact := -5 }

/-- A finding that ties with `tieFindingA` on severity and score impact. -/
def tieFindingB : Finding :=
  { id := "DEPS.MULTIPLE_PACKAGE_MANAGERS",
    title := "Multiple JavaScript package managers detected",
    severity := Severity.medium, category := Category.deps,
    score_impact := -5 }

/-- Counterexample to claim C4: two distinct findings with equal severity
and equal score impact keep their production order (Python's sort is
stable), so the same multiset of findings produced in a different order
sorts to a different list. -/
theorem sortFindings_tie_order_dependent :
    ([tieFindingA, tieFindingB] : List Finding).Perm [tieFindingB, tieFindingA] ∧
    sortFindings [tieFindingA, tieFindingB] = [tieFindingA, tieFindingB] ∧
    sortFindings [tieFindingB, tieFindingA] = [tieFindingB, tieFindingA] ∧
    sortFindings [tieFindingA, tieFindingB]
      ≠ sortFindings [tieFindingB, tieFindingA] := by
  decide

/-- The sorted output, viewed through the sort key, is sorted for the
lexicographic pair order. -/
theorem sortFindings_map_sorted (l : List Finding) :
    List.Sorted pairLe ((sortFindings l).map sortKey) :=
  List.Pairwise.map sortKey (fun _ _ hab => hab)
    (List.sorted_insertionSort findingLe l)

/-- Claim C4 (amended): the scanner's sort orders findings primarily by
severity descending and secondarily by `score_impact` ascending among equal
severities, and returns a permutation of its input; for an identical
multiset of findings the resulting sequence of
(severity, score impact) keys is the same regardless of production order,
but findings that tie on both keys keep their production order, so the full
finding order is not independent of check execution order. -/
theorem sortFindings_spec :
    (∀ l : List Finding, (sortFindings l).Pairwise
       (fun f g => g.severity.index < f.severity.index ∨
         (g.severity.index = f.severity.index ∧
           f.score_impact ≤ g.score_impact))) ∧
    (∀ l : List Finding, (sortFindings l).Perm l) ∧
    (∀ l₁ l₂ : List Finding, l₁.Perm l₂ →
       (sortFindings l₁).map sortKey = (sortFindings l₂).map sortKey) := by
  refine ⟨fun l => ?_, fun l => List.perm_insertionSort findingLe l,
    fun l₁ l₂ h => ?_⟩
  · have hs := List.sorted_insertionSort findingLe l
    exact hs.imp (fun hab => by
      revert hab
      unfold findingLe pairLe sortKey
      omega)
  · have hperm : ((sortFindings l₁).map sortKey).Perm
        ((sortFindings l₂).map sortKey) :=
      (((List.perm_insertionSort findingLe l₁).trans h).trans
        (List.perm_insertionSort findingLe l₂).symm).map sortKey
    exact List.eq_of_perm_of_sorted hperm
      (sortFindings_map_sorted l₁) (sortFindings_map_sorted l₂)

/-- Witness for C4 (amended): two tied findings in either production order
sort to the same key sequence. -/
theorem sortFindings_spec_witness :
    (sortFindings [tieFindingB, tieFindingA]).map sortKey
      = (sortFindings [tieFindingA, tieFindingB]).map sortKey :=
  sortFindings_spec.2.2 _ _ (by decide)

/-! ## Scanner fault-tolerance theorem -/

/-- Claim C8: a check that raises an unexpected exception is caught by the
scanner (the scan still completes — all functions here are total), and the
faulting check contributes zero findings: both the collected findings and
the sorted findings packaged into the `Report` equal those of the same
check set with the faulting check removed. -/
theorem scan_faulting_check_contributes_nothing
    (pre post : List (Option (List Finding))) :
    collectFindings (pre ++ none :: post) = collectFindings (pre ++ post) ∧
    scan_findings (pre ++ none :: post) = scan_findings (pre ++ post) := by
  have h : ∀ pre1 : List (Option (List Finding)),
      collectFindings (pre1 ++ none :: post) = collectFindings (pre1 ++ post) := by
    intro pre1
    induction pre1 with
    | nil => rfl
    | cons r rest ih => cases r <;> simp [collectFindings, ih]
  exact ⟨h pre, congrArg sortFindings (h pre)⟩

/-! ## Outdated-hints theorems -/

/-- For any lockfile list, the loop's result is determined by the first
lockfile it actually examines: the very-outdated finding when its mtime is
more than a year old, the may-be-outdated finding when it is between six
months and a year old. -/
theorem outdatedRunOn_of_firstLockStat (weights : List (String × Int))
    (now : Int) (fsGlob : String → List String)
    (fsStats : String → Option FileStats) (L : List String)
    (name file : String) (m : Int)
    (hfirst : firstLockStat fsGlob fsStats L = some (name, file, m)) :
    (m < now - oneYearSecs →
       outdatedRunOn weights now fsGlob fsStats L
         = [veryOutdatedFinding weights name file]) ∧
    (now - oneYearSecs ≤ m → m < now - sixMonthsSecs →
       outdatedRunOn weights now fsGlob fsStats L
         = [maybeOutdatedFinding name file]) := by
  induction L with
  | nil => simp [firstLockStat] at hfirst
  | cons n rest ih =>
    cases hg : fsGlob n with
    | nil =>
      simp only [firstLockStat, outdatedRunOn, hg] at hfirst ⊢
      exact ih hfirst
    | cons file0 t =>
      cases hs : fsStats file0 with
      | none =>
        simp only [firstLockStat, outdatedRunOn, hg, hs] at hfirst ⊢
        exact ih hfirst
      | some stats =>
        simp only [firstLockStat, outdatedRunOn, hg, hs,
          Option.some.injEq, Prod.mk.injEq] at hfirst ⊢
        obtain ⟨h1, h2, h3⟩ := hfirst
        subst h1; subst h2; subst h3
        constructor
        · intro hold
          rw [if_pos hold]
        · intro hge hmid
          rw [if_neg (by omega), if_pos hmid]

/-- Claim C9: when the first lockfile the check examines was modified more
than 365 days ago, `OutdatedHintsCheck.run` yields exactly one
"very outdated" finding; when it was modified between 180 and 365 days ago
it yields the "may be outdated" finding instead, and the former has
strictly higher severity and a different title than the latter. -/
theorem outdated_hints_age_findings (weights : List (String × Int))
    (now : Int) (fsGlob : String → List String)
    (fsStats : String → Option FileStats) (name file : String) (m : Int)
    (hfirst : firstLockStat fsGlob fsStats outdatedLockfiles
      = some (name, file, m)) :
    (m < now - oneYearSecs →
       outdatedHintsRun weights now fsGlob fsStats
         = [veryOutdatedFinding weights name file]) ∧
    (now - oneYearSecs ≤ m → m < now - sixMonthsSecs →
       outdatedHintsRun weights now fsGlob fsStats
         = [maybeOutdatedFinding name file]) ∧
    Severity.lt (maybeOutdatedFinding name file).severity
      (veryOutdatedFinding weights name file).severity ∧
    (veryOutdatedFinding weights name file).title
      ≠ (maybeOutdatedFinding name file).title := by
  obtain ⟨h1, h2⟩ := outdatedRunOn_of_firstLockStat weights now fsGlob fsStats
    outdatedLockfiles name file m hfirst
  refine ⟨h1, h2, ?_, ?_⟩
  · show Severity.lt Severity.low Severity.medium
    decide
  · show ("Lockfile appears very outdated" : String)
      ≠ "Lockfile may be outdated"
    decide

/-- A glob model where only `package-lock.json` matches (itself). -/
def testLockGlob : String → List String :=
  fun n => if n = "package-lock.json" then ["package-lock.json"] else []

/-- A stats model where every file has mtime 0. -/
def testLockStats : String → Option FileStats :=
  fun _ => some { size := 10, mtime := 0 }

/-- Witness for C9: with a lockfile last modified at time 0 and the scan at
time 40000000 (more than 365 days later), the check yields exactly the
very-outdated finding. -/
theorem outdated_hints_age_findings_witness :
    outdatedHintsRun [] 40000000 testLockGlob testLockStats
      = [veryOutdatedFinding [] "package-lock.json" "package-lock.json"] :=
  (outdated_hints_age_findings [] 40000000 testLockGlob testLockStats
    "package-lock.json" "package-lock.json" 0 (by decide)).1 (by decide)

/-! ## Filesystem view theorems -/

/-- A raw glob whose only match is a symlink. -/
def symlinkOnlyGlobFS : String → List PathEntry :=
  fun _ => [{ path := "README.md", is_symlink := true }]

/-- A raw glob whose only match is a regular file. -/
def regularGlobFS : String → List PathEntry :=
  fun _ => [{ path := "README.md", is_symlink := false }]

/-- Claim C10: `glob` non-empty implies `exists`, but not conversely:
`exists` tests the raw glob (symlinks included) while `glob` filters out
symlinked matches when not following symlinks, so a pattern matched only by
a symlink has `exists = true` and an empty `glob`. -/
theorem glob_exists_symlink_divergence :
    (∀ (rawGlob : String → List PathEntry) (pattern : String),
       fs_glob rawGlob false pattern ≠ [] →
         fs_exists rawGlob [pattern] = true) ∧
    (fs_exists symlinkOnlyGlobFS ["README*"] = true ∧
     fs_glob symlinkOnlyGlobFS false "README*" = []) := by
  refine ⟨fun rawGlob pattern h => ?_, by decide, by decide⟩
  cases hr : rawGlob pattern with
  | nil => exact absurd (by simp [fs_glob, hr]) h
  | cons a t => simp [fs_exists, glob_exists, hr]

/-- Witness for C10: a pattern matched by a regular file passes the
implication from non-empty `glob` to `exists`. -/
theorem glob_exists_symlink_divergence_witness :
    fs_exists regularGlobFS ["README.md"] = true :=
  glob_exists_symlink_divergence.1 regularGlobFS "README.md" (by decide)

end RHC
